import Mathlib

/-!
Verification development for the FinanceMVP/finance-map repository.

The Python source (src/Finance-MVP) is shallowly embedded here:
float arithmetic is modelled over ℚ (exact real-number semantics of the
arithmetic the code performs), Python `for` loops with `break` become
fuel-structural recursive functions, and the two operations that can raise
`ZeroDivisionError` (`/` with a non-constant divisor) go through `pydiv`,
so that functions which could raise return `Option`/`Except` values.
-/

set_option maxRecDepth 4000

deriving instance DecidableEq for Except

namespace FinanceMVP

/-! ## Data model (scenario_engine.py, lines 5-32) -/

/-- `Debt` (scenario_engine.py lines 7-12). -/
structure Debt where
  category : String
  balance : ℚ
  apr : ℚ
  min_payment : ℚ
  monthly_spend : ℚ
deriving DecidableEq

/-- `ScenarioInput` (scenario_engine.py lines 14-22); defaults mirror the
pydantic defaults. `weights` is an optional dict, modelled as an optional
association list; Python truthiness (`not inp.weights`) is `weightsTruthy`. -/
structure ScenarioInput where
  lump_sum : ℚ := 0
  monthly_free_cash : ℚ := 0
  debts : List Debt := []
  invest_return : ℚ := 7
  emergency_fund_goal : ℚ := 0
  months : Option ℕ := none
  assumed_happiness : ℤ := 60
  weights : Option (List (String × ℚ)) := none
deriving DecidableEq

/-- `ScenarioResult` (scenario_engine.py lines 24-32). -/
structure ScenarioResult where
  name : String
  end_balance : ℚ
  interest_saved : ℚ
  investment_value : ℚ
  liquidity : ℚ
  time_to_debt_free_months : ℕ
  timeline_used : ℕ
  allocations : List (String × ℚ)
deriving DecidableEq

/-- Placeholder result used only as the explicit default for list indexing
in closed statements. -/
def dummyResult : ScenarioResult :=
  ⟨"", 0, 0, 0, 0, 0, 0, []⟩

/-- Python `a / b`: raises `ZeroDivisionError` when `b = 0`, modelled as `none`. -/
def pydiv (a b : ℚ) : Option ℚ :=
  if b = 0 then none else some (a / b)

/-- Python `max` on two rationals, written so that the kernel can compute
it; equal to `max` (`qmax_eq`). -/
def qmax (a b : ℚ) : ℚ :=
  if a ≤ b then b else a

/-- Python `min` on two rationals, written so that the kernel can compute
it; equal to `min` (`qmin_eq`). -/
def qmin (a b : ℚ) : ℚ :=
  if a ≤ b then a else b

/-! ## Helpers of scenario_engine.py -/

/-- `_monthly_rate` (line 34-35); the divisors are the literals 100 and 12. -/
def _monthly_rate (apr_pct : ℚ) : ℚ :=
  (apr_pct / 100) / 12

/-- The `for` loop of `_future_value` (lines 39-41), iterated by fuel. -/
def fvLoop (r monthly_contrib : ℚ) : ℕ → ℚ → ℚ
  | 0, fv => fv
  | n + 1, fv => fvLoop r monthly_contrib n (fv * (1 + r) + monthly_contrib)

/-- `_future_value` (lines 37-42). -/
def _future_value (monthly_contrib : ℚ) (months : ℕ) (annual_return_pct : ℚ) : ℚ :=
  fvLoop ((annual_return_pct / 100) / 12) monthly_contrib months 0

/-- The `for m in range(1, months+1)` loop of `_amortize_single`
(lines 49-57): `fuel` is the number of remaining iterations, `m` the
current month; falling off the loop returns `(interest_paid, months)`. -/
def amortizeLoop (r payment spend : ℚ) (months : ℕ) :
    ℕ → ℕ → ℚ → ℚ → ℚ × ℕ
  | 0, _, _, interest_paid => (interest_paid, months)
  | fuel + 1, m, balance, interest_paid =>
    let interest := balance * r
    let ip := interest_paid + interest
    let principal_paid := qmax 0 (payment - interest)
    let b1 := qmax 0 (balance - principal_paid)
    let b2 := if 0 < spend then b1 + spend else b1
    if b2 ≤ 1 / 100 then (ip, m)
    else amortizeLoop r payment spend months fuel (m + 1) b2 ip

/-- `_amortize_single` (lines 44-58). -/
def _amortize_single (balance apr_pct monthly_payment : ℚ) (months : ℕ)
    (monthly_spend : ℚ) : ℚ × ℕ :=
  if balance ≤ 0 then (0, 0)
  else amortizeLoop (_monthly_rate apr_pct) monthly_payment monthly_spend
    months months 1 balance 0

/-- `_total_balance_and_min_payment` (lines 60-63). -/
def _total_balance_and_min_payment (debts : List Debt) : ℚ × ℚ :=
  ((debts.map Debt.balance).sum, (debts.map Debt.min_payment).sum)

/-- `_estimate_timeline` (lines 65-78). `math.ceil` on the exact rational is
`Int.ceil`; every value produced is nonnegative (each branch ends in a clamp
whose lower arm is positive), so the result lives in `ℕ`. -/
def _estimate_timeline (inp : ScenarioInput) : Option ℕ :=
  let total_balance := (_total_balance_and_min_payment inp.debts).1
  let total_min := (_total_balance_and_min_payment inp.debts).2
  if 0 < total_balance ∧ 0 < total_min then do
    let avg_apr ← if 0 < total_balance then
        pydiv ((inp.debts.map (fun d => d.apr * d.balance)).sum) total_balance
      else pure 0
    let interest_per_month := total_balance * _monthly_rate avg_apr
    let principal_payment := qmax 1 (total_min - interest_per_month)
    let q ← pydiv total_balance principal_payment
    let est_months := (Int.ceil q).toNat
    pure (min (max (est_months + 3) 6) 360)
  else if 0 < inp.emergency_fund_goal ∧ 0 < inp.monthly_free_cash then do
    let q ← pydiv inp.emergency_fund_goal inp.monthly_free_cash
    pure (min (max (Int.ceil q).toNat 6) 360)
  else
    pure 60

/-- `horizon = inp.months if inp.months else _estimate_timeline(inp)`
(line 84): Python truthiness sends both `None` and `0` to the estimate. -/
def getHorizon (inp : ScenarioInput) : Option ℕ :=
  match inp.months with
  | some m => if m ≠ 0 then some m else _estimate_timeline inp
  | none => _estimate_timeline inp

/-! ## run_scenarios (lines 80-316) -/

/-- Stable insertion used by `sortByAprDesc`: a debt passes over every
earlier debt with apr at least its own, so equal-apr debts keep their
original relative order (Python's `sorted` is stable). -/
def insertByAprDesc (d : Debt) : List Debt → List Debt
  | [] => [d]
  | e :: es => if e.apr ≤ d.apr then d :: e :: es else e :: insertByAprDesc d es

/-- `sorted(debts_copy, key=lambda x: -x["apr"])` (line 96): stable sort,
descending by apr. -/
def sortByAprDesc : List Debt → List Debt
  | [] => []
  | d :: ds => insertByAprDesc d (sortByAprDesc ds)

/-- The lump-application loop (lines 97-103, also 197-203 and 257-263):
walk the list, paying each debt down by `min balance remaining`; `break`
once the remaining cash is not positive. -/
def applyLump (lump_remaining : ℚ) : List Debt → List Debt
  | [] => []
  | d :: ds =>
    if lump_remaining ≤ 0 then d :: ds
    else
      let ap := qmin d.balance lump_remaining
      { d with balance := qmax 0 (d.balance - ap) } :: applyLump (lump_remaining - ap) ds

/-- The monthly extra-payment loop (lines 121-129, also 217-225 and
281-289). The simulated debt list is produced by `sortByAprDesc` before the
monthly loop and the loops never reorder it, so the per-month
`sorted(sim_debts, key=lambda x: -x["apr"])` in the source is the identity
(a stable sort of an already descending list) and the cash is applied in
list order. Debts with non-positive balance are skipped (`continue`). -/
def applyExtra (rem_extra : ℚ) : List Debt → List Debt
  | [] => []
  | d :: ds =>
    if rem_extra ≤ 0 then d :: ds
    else if d.balance ≤ 0 then d :: applyExtra rem_extra ds
    else
      let ap := qmin rem_extra d.balance
      { d with balance := qmax 0 (d.balance - ap) } :: applyExtra (rem_extra - ap) ds

/-- Credit-card spend pass (lines 110-112, also 270-272). -/
def ccSpend (ds : List Debt) : List Debt :=
  ds.map fun d =>
    if d.category = "credit_card" ∧ 0 < d.monthly_spend then
      { d with balance := d.balance + d.monthly_spend }
    else d

/-- Interest-accrual and minimum-payment pass (lines 113-120, identical to
lines 273-280): skips debts with non-positive balance, returns the updated
debts and the interest accrued this month. -/
def accrueAndPay : List Debt → List Debt × ℚ
  | [] => ([], 0)
  | d :: ds =>
    let rest := accrueAndPay ds
    if d.balance ≤ 0 then (d :: rest.1, rest.2)
    else
      let interest := d.balance * _monthly_rate d.apr
      let balance := d.balance + interest
      let pay := qmin d.min_payment balance
      ({ d with balance := qmax 0 (balance - pay) } :: rest.1, interest + rest.2)

/-- `all(d["balance"] <= 0.01 for d in sim_debts)` (lines 130, 226, 293). -/
def allCleared (ds : List Debt) : Bool :=
  ds.all fun d => d.balance ≤ 1 / 100

/-- Running state of the Pay-Debt and Hybrid monthly loops: the simulated
debts, the accumulated interest, and the recorded payoff month (0 = unset). -/
structure PayState where
  debts : List Debt
  interest : ℚ
  payoff : ℕ
deriving DecidableEq

/-- The Pay-Debt monthly loop (lines 109-132): cc-spend pass, accrual pass,
extra-payment pass, then `break` with the payoff month once all balances
cleared. `fuel` is the number of months left, `month` the current month. -/
def payDebtLoop (extra : ℚ) : ℕ → ℕ → PayState → PayState
  | 0, _, s => s
  | fuel + 1, month, s =>
    let ds2 := accrueAndPay (ccSpend s.debts)
    let ds3 := applyExtra extra ds2.1
    if allCleared ds3 then ⟨ds3, s.interest + ds2.2, month⟩
    else payDebtLoop extra fuel (month + 1) ⟨ds3, s.interest + ds2.2, s.payoff⟩

/-- Hybrid's fused spend-and-accrue pass (lines 207-216): unlike Pay Debt,
the credit-card spend is added inside the same per-debt iteration, right
before the balance test. -/
def hybridAccrue : List Debt → List Debt × ℚ
  | [] => ([], 0)
  | d :: ds =>
    let d1 := if d.category = "credit_card" ∧ 0 < d.monthly_spend then
        { d with balance := d.balance + d.monthly_spend }
      else d
    let rest := hybridAccrue ds
    if d1.balance ≤ 0 then (d1 :: rest.1, rest.2)
    else
      let interest := d1.balance * _monthly_rate d1.apr
      let balance := d1.balance + interest
      let pay := qmin d1.min_payment balance
      ({ d1 with balance := qmax 0 (balance - pay) } :: rest.1, interest + rest.2)

/-- The Hybrid monthly loop (lines 206-228). -/
def hybridLoop (monthly_to_debt : ℚ) : ℕ → ℕ → PayState → PayState
  | 0, _, s => s
  | fuel + 1, month, s =>
    let ds2 := hybridAccrue s.debts
    let ds3 := applyExtra monthly_to_debt ds2.1
    if allCleared ds3 then ⟨ds3, s.interest + ds2.2, month⟩
    else hybridLoop monthly_to_debt fuel (month + 1) ⟨ds3, s.interest + ds2.2, s.payoff⟩

/-- Running state of the Debt + EF Goal monthly loop (lines 265-268):
debts, accumulated interest, payoff month (0 = unset), the running
emergency-fund balance, and `ef_goal_month` (initialised to the horizon). -/
structure EFState where
  debts : List Debt
  interest : ℚ
  payoff : ℕ
  ef_balance : ℚ
  ef_goal_month : ℕ
deriving DecidableEq

/-- The Debt + EF Goal monthly loop (lines 269-296). The second component
is the month at which the loop `break`s (`none` when it runs to the end).
The `break` fires only when the EF balance has met the goal *and* the
payoff month has been recorded (line 295). -/
def efLoop (goal monthly_to_debt monthly_to_ef : ℚ) (horizon : ℕ) :
    ℕ → ℕ → EFState → EFState × Option ℕ
  | 0, _, s => (s, none)
  | fuel + 1, month, s =>
    let ds2 := accrueAndPay (ccSpend s.debts)
    let ds3 := applyExtra monthly_to_debt ds2.1
    let efb := s.ef_balance + monthly_to_ef
    let egm := if goal ≤ efb ∧ s.ef_goal_month = horizon then month else s.ef_goal_month
    let po := if allCleared ds3 ∧ s.payoff = 0 then month else s.payoff
    let s' : EFState := ⟨ds3, s.interest + ds2.2, po, efb, egm⟩
    if goal ≤ efb ∧ po ≠ 0 then (s', some month)
    else efLoop goal monthly_to_debt monthly_to_ef horizon fuel (month + 1) s'

/-- One step of the baseline accumulation (lines 88-91): per-debt
`_amortize_single` with the credit-card spend only for credit cards; adds
the interest and takes the max payoff month. -/
def baselineStep (horizon : ℕ) (acc : ℚ × ℕ) (d : Debt) : ℚ × ℕ :=
  let im := _amortize_single d.balance d.apr d.min_payment horizon
    (if d.category = "credit_card" then d.monthly_spend else 0)
  (acc.1 + im.1, max acc.2 im.2)

/-- The baseline accumulation loop (lines 86-91). -/
def baselineFold (debts : List Debt) (horizon : ℕ) : ℚ × ℕ :=
  debts.foldl (baselineStep horizon) (0, 0)

/-- `w.get(k, 0.0)` on the weights dict (lines 184-187). -/
def wget (w : List (String × ℚ)) (k : String) : ℚ :=
  ((w.find? fun p => p.1 = k).map Prod.snd).getD 0

/-- Python truthiness of `inp.weights` (line 180): falsy iff absent or empty. -/
def weightsTruthy : Option (List (String × ℚ)) → Bool
  | none => false
  | some w => !w.isEmpty

/-- `max(1e-9, sum of the three weight entries)` (line 184). -/
def total_w (w : List (String × ℚ)) : ℚ :=
  qmax (1 / 1000000000) (wget w "debt" + wget w "ef" + wget w "invest")

/-- `debt_share` (line 185): the debt weight divided by the clamped sum. -/
def debtShare (inp : ScenarioInput) : ℚ :=
  wget (inp.weights.getD []) "debt" / total_w (inp.weights.getD [])

/-- `ef_share` (line 186). -/
def efShare (inp : ScenarioInput) : ℚ :=
  wget (inp.weights.getD []) "ef" / total_w (inp.weights.getD [])

/-- `invest_share` (line 187). -/
def investShare (inp : ScenarioInput) : ℚ :=
  wget (inp.weights.getD []) "invest" / total_w (inp.weights.getD [])

/-- The debts after the APR-descending sort and the full lump-sum
pre-application (lines 95-103). Note the source mutates `debts_sorted`
in place, so Hybrid and Debt + EF Goal also start from this list. -/
def lumpedDebts (inp : ScenarioInput) : List Debt :=
  applyLump inp.lump_sum (sortByAprDesc inp.debts)

/-- The "Pay Debt" result (lines 105-148). The source computes
`baseline_interest` once before this block; recomputing the pure
`baselineFold` here yields the same value. -/
def payDebtResult (inp : ScenarioInput) (horizon : ℕ) : ScenarioResult :=
  let baseline_interest := (baselineFold inp.debts horizon).1
  let s := payDebtLoop inp.monthly_free_cash horizon 1 ⟨lumpedDebts inp, 0, 0⟩
  { name := "Pay Debt"
    end_balance := 0
    interest_saved := qmax 0 (baseline_interest - s.interest)
    investment_value := 0
    liquidity := 0
    time_to_debt_free_months := if s.payoff = 0 then horizon else s.payoff
    timeline_used := horizon
    allocations := [("lump_to_debt", inp.lump_sum),
                    ("monthly_to_debt", inp.monthly_free_cash)] }

/-- The "Invest" result (lines 150-163). -/
def investResult (inp : ScenarioInput) (horizon : ℕ) : ScenarioResult :=
  { name := "Invest"
    end_balance := 0
    interest_saved := 0
    investment_value :=
      _future_value inp.monthly_free_cash horizon inp.invest_return + inp.lump_sum
    liquidity := 0
    time_to_debt_free_months := (baselineFold inp.debts horizon).2
    timeline_used := horizon
    allocations := [("lump_to_invest", inp.lump_sum),
                    ("monthly_to_invest", inp.monthly_free_cash)] }

/-- The "Save" result (lines 165-178). -/
def saveResult (inp : ScenarioInput) (horizon : ℕ) : ScenarioResult :=
  { name := "Save"
    end_balance := 0
    interest_saved := 0
    investment_value := 0
    liquidity := qmin inp.emergency_fund_goal inp.lump_sum
      + inp.monthly_free_cash * ((min horizon 12 : ℕ) : ℚ)
    time_to_debt_free_months := (baselineFold inp.debts horizon).2
    timeline_used := horizon
    allocations := [("lump_to_ef", qmin inp.lump_sum inp.emergency_fund_goal),
                    ("monthly_to_ef", inp.monthly_free_cash)] }

/-- The "Hybrid" result (lines 189-249), given the three computed shares.
Its simulation starts from `lumpedDebts` (the source reuses the mutated
`debts_sorted`) with the hybrid lump share applied on top (lines 196-203). -/
def hybridResult (inp : ScenarioInput) (horizon : ℕ)
    (debt_share ef_share invest_share : ℚ) : ScenarioResult :=
  let baseline_interest := (baselineFold inp.debts horizon).1
  let lump_debt := inp.lump_sum * debt_share
  let lump_ef := inp.lump_sum * ef_share
  let lump_invest := inp.lump_sum * invest_share
  let monthly_to_debt := inp.monthly_free_cash * debt_share
  let monthly_to_ef := inp.monthly_free_cash * ef_share
  let monthly_to_invest := inp.monthly_free_cash * invest_share
  let s := hybridLoop monthly_to_debt horizon 1 ⟨applyLump lump_debt (lumpedDebts inp), 0, 0⟩
  { name := "Hybrid"
    end_balance := 0
    interest_saved := qmax 0 (baseline_interest - s.interest)
    investment_value := _future_value monthly_to_invest horizon inp.invest_return + lump_invest
    liquidity := lump_ef + monthly_to_ef * ((min horizon 12 : ℕ) : ℚ)
    time_to_debt_free_months := if s.payoff = 0 then horizon else s.payoff
    timeline_used := horizon
    allocations := [("lump_debt", lump_debt), ("lump_invest", lump_invest),
                    ("lump_ef", lump_ef), ("monthly_to_debt", monthly_to_debt),
                    ("monthly_to_invest", monthly_to_invest),
                    ("monthly_to_ef", monthly_to_ef)] }

/-- The "Debt + EF Goal" result (lines 251-314), given the computed shares;
its simulation also starts from `lumpedDebts` with the debt lump share
applied on top (lines 256-263). -/
def debtEfResult (inp : ScenarioInput) (horizon : ℕ)
    (debt_share ef_share : ℚ) : ScenarioResult :=
  let baseline_interest := (baselineFold inp.debts horizon).1
  let lump_debt_e := inp.lump_sum * debt_share
  let lump_ef_e := inp.lump_sum * ef_share
  let monthly_to_debt_e := inp.monthly_free_cash * debt_share
  let monthly_to_ef_e := inp.monthly_free_cash * ef_share
  let s := (efLoop inp.emergency_fund_goal monthly_to_debt_e monthly_to_ef_e horizon
      horizon 1 ⟨applyLump lump_debt_e (lumpedDebts inp), 0, 0, lump_ef_e, horizon⟩).1
  { name := "Debt + EF Goal"
    end_balance := 0
    interest_saved := qmax 0 (baseline_interest - s.interest)
    investment_value := 0
    liquidity := s.ef_balance
    time_to_debt_free_months := if s.payoff = 0 then horizon else s.payoff
    timeline_used := horizon
    allocations := [("lump_debt", lump_debt_e), ("lump_ef", lump_ef_e),
                    ("monthly_to_debt", monthly_to_debt_e),
                    ("monthly_to_ef", monthly_to_ef_e)] }

/-- `run_scenarios` (lines 80-316). The two share divisions (lines
185-187) go through `pydiv`; everything else is exception-free arithmetic. -/
def run_scenarios (inp : ScenarioInput) : Option (List ScenarioResult) := do
  let horizon ← getHorizon inp
  let base := [payDebtResult inp horizon, investResult inp horizon, saveResult inp horizon]
  if ¬ weightsTruthy inp.weights then
    return base
  else do
    let w := inp.weights.getD []
    let debt_share ← pydiv (wget w "debt") (total_w w)
    let ef_share ← pydiv (wget w "ef") (total_w w)
    let invest_share ← pydiv (wget w "invest") (total_w w)
    return base ++ [hybridResult inp horizon debt_share ef_share invest_share,
                    debtEfResult inp horizon debt_share ef_share]

/-- Closed form of `run_scenarios` once the horizon is known: the same five
result builders, with the share divisions carried out. -/
def resultList (inp : ScenarioInput) (horizon : ℕ) : List ScenarioResult :=
  let base := [payDebtResult inp horizon, investResult inp horizon, saveResult inp horizon]
  if ¬ weightsTruthy inp.weights then base
  else
    base ++ [hybridResult inp horizon (debtShare inp) (efShare inp) (investShare inp),
             debtEfResult inp horizon (debtShare inp) (efShare inp)]

/-! ## app.py -/

/-- Python 3 `round` on an exact rational: round half to even (banker's
rounding), nearest integer otherwise. -/
def pyround (q : ℚ) : ℤ :=
  if q - Int.floor q = 1 / 2 then
    (if Int.floor q % 2 = 0 then Int.floor q else Int.floor q + 1)
  else round q

/-- `round(x, 3)` on an exact rational. -/
def round3 (q : ℚ) : ℚ :=
  (pyround (q * 1000) : ℚ) / 1000

/-- The label ladder of `assess` (app.py lines 21-26). -/
def scoreLabel (score : ℤ) : String :=
  if 80 ≤ score then "Excellent"
  else if 65 ≤ score then "Good"
  else if 50 ≤ score then "Moderate"
  else "Low"

/-- Question ids feeding the debt bucket (app.py line 33). -/
def debtQs : List String := ["q1", "q3", "q5", "q9"]

/-- Question ids feeding the emergency-fund bucket (app.py line 35). -/
def efQs : List String := ["q2", "q6", "q7", "q8"]

/-- Question ids feeding the invest bucket (app.py line 37). -/
def investQs : List String := ["q4", "q10"]

/-- The bucket-accumulation loop of `assess` (app.py lines 30-38), over the
(debt, ef, invest) triple; `0.05` is `5/100`. -/
def addBuckets : ℚ × ℚ × ℚ → List (String × ℤ) → ℚ × ℚ × ℚ
  | w, [] => w
  | w, (qid, s) :: rest =>
    let w1 :=
      if qid ∈ debtQs then (w.1 + (s : ℚ) * (5 / 100), w.2.1, w.2.2)
      else if qid ∈ efQs then (w.1, w.2.1 + (s : ℚ) * (5 / 100), w.2.2)
      else if qid ∈ investQs then (w.1, w.2.1, w.2.2 + (s : ℚ) * (5 / 100))
      else w
    addBuckets w1 rest

/-- `assess` (app.py lines 12-43). A response is an `(id, score)` pair; the
endpoint takes raw dicts, so the score is an unconstrained integer. The
empty list raises HTTP 400 (modelled as `Except.error`). The division by
`len(responses)` happens only in the non-empty branch; `total` is guarded by
`or 1.0` (app.py line 40). Buckets start at debt 0.33, ef 0.33, invest 0.34
(app.py line 29). -/
def assess (responses : List (String × ℤ)) :
    Except String (ℤ × String × (ℚ × ℚ × ℚ)) :=
  if responses.isEmpty then
    Except.error "You must complete the assessment."
  else
    let avg : ℚ := ((responses.map fun r => (r.2 : ℚ)).sum) / (responses.length : ℚ)
    let score : ℤ := pyround (avg * 20)
    let w := addBuckets (33 / 100, 33 / 100, 34 / 100) responses
    let t0 := w.1 + w.2.1 + w.2.2
    let total := if t0 = 0 then 1 else t0
    Except.ok (score, scoreLabel score,
      (round3 (w.1 / total), round3 (w.2.1 / total), round3 (w.2.2 / total)))

/-- `quick_assess` (app.py lines 46-53): rejects anything outside
debt/ef/invest; otherwise starts from `{debt: 0.33, ef: 0.33, invest: 0.33}`
and overwrites the chosen key with `0.6`. -/
def quick_assess (choice : String) :
    Except String (ℤ × String × (ℚ × ℚ × ℚ)) :=
  if choice ∉ (["debt", "ef", "invest"] : List String) then
    Except.error "choice must be debt, ef, or invest"
  else
    let w : ℚ × ℚ × ℚ := (33 / 100, 33 / 100, 33 / 100)
    let w := if choice = "debt" then ((6 : ℚ) / 10, w.2.1, w.2.2) else w
    let w := if choice = "ef" then (w.1, (6 : ℚ) / 10, w.2.2) else w
    let w := if choice = "invest" then (w.1, w.2.1, (6 : ℚ) / 10) else w
    Except.ok (60, "Quick", w)

/-- True exactly on `Except.ok` values (success of an endpoint call). -/
def isOkE {ε α : Type} : Except ε α → Bool
  | Except.ok _ => true
  | Except.error _ => false

/-! ## Definitions following the spec's words (refinement references) -/

/-- The §4.2 debt-branch horizon exactly as the spec words it: the
balance-weighted average APR across all debts, the blended monthly interest
drag on the total balance, the effective principal reduction floored at 1,
`ceil(total balance / that)` plus a 3-month buffer, clamped to `[6, 360]`. -/
def specTimelineDebt (inp : ScenarioInput) : ℕ :=
  let total_balance := (inp.debts.map Debt.balance).sum
  let total_min := (inp.debts.map Debt.min_payment).sum
  let avg_apr := (inp.debts.map fun d => d.apr * d.balance).sum / total_balance
  let drag := total_balance * ((avg_apr / 100) / 12)
  min (max ((Int.ceil (total_balance / qmax 1 (total_min - drag))).toNat + 3) 6) 360

/-- The §4.2 emergency-fund-branch horizon as the spec words it:
`ceil(goal / monthly surplus)` clamped to `[6, 360]`. -/
def specTimelineEf (inp : ScenarioInput) : ℕ :=
  min (max (Int.ceil (inp.emergency_fund_goal / inp.monthly_free_cash)).toNat 6) 360

/-- The weight pipeline of `assess` exactly as the spec words it: every
bucket starts at the base weight 0.33, each answered question adds
`score × 0.05` to its bucket, then each bucket is divided by the sum of the
three (divisor 1 if the sum is zero) and rounded to 3 decimals. -/
def specAssessWeights (responses : List (String × ℤ)) : ℚ × ℚ × ℚ :=
  let w := addBuckets (33 / 100, 33 / 100, 33 / 100) responses
  let t0 := w.1 + w.2.1 + w.2.2
  let total := if t0 = 0 then 1 else t0
  (round3 (w.1 / total), round3 (w.2.1 / total), round3 (w.2.2 / total))

/-- The spec's weight pipeline with the invest bucket's base corrected to
0.34 (the value app.py line 29 actually uses). -/
def specAssessWeights034 (responses : List (String × ℤ)) : ℚ × ℚ × ℚ :=
  let w := addBuckets (33 / 100, 33 / 100, 34 / 100) responses
  let t0 := w.1 + w.2.1 + w.2.2
  let total := if t0 = 0 then 1 else t0
  (round3 (w.1 / total), round3 (w.2.1 / total), round3 (w.2.2 / total))

/-! ## Concrete inputs used in closed statements -/

/-- The single-credit-card scenario of §8: balance 5000, APR 24, minimum
payment 150, no monthly spend; no lump, no surplus, explicit 12 months. -/
def inpC5 : ScenarioInput :=
  { debts := [⟨"credit_card", 5000, 24, 150, 0⟩], months := some 12 }

/-- The all-default (no-debt, all-zero) input. -/
def inp0 : ScenarioInput := {}

/-- A debt with positive balance but zero minimum payment (and no
emergency-fund data). -/
def inpC3 : ScenarioInput := { debts := [⟨"personal", 100, 0, 0, 0⟩] }

/-- A debt with positive balance and positive minimum payment. -/
def inpT : ScenarioInput := { debts := [⟨"personal", 100, 0, 10, 0⟩] }

/-- No debts, emergency-fund goal 100 with monthly surplus 30. -/
def inpEf : ScenarioInput := { emergency_fund_goal := 100, monthly_free_cash := 30 }

/-- The value of `run_scenarios inpC5`. -/
def resC5 : List ScenarioResult :=
  [⟨"Pay Debt", 0, 0, 0, 0, 12, 12, [("lump_to_debt", 0), ("monthly_to_debt", 0)]⟩,
   ⟨"Invest", 0, 0, 0, 0, 12, 12, [("lump_to_invest", 0), ("monthly_to_invest", 0)]⟩,
   ⟨"Save", 0, 0, 0, 0, 12, 12, [("lump_to_ef", 0), ("monthly_to_ef", 0)]⟩]

/-! ## Helper lemmas -/

lemma qmax_eq (a b : ℚ) : qmax a b = max a b :=
  (max_def a b).symm

lemma qmin_eq (a b : ℚ) : qmin a b = min a b :=
  (min_def a b).symm

lemma pydiv_eq_of_pos (a b : ℚ) (hb : 0 < b) : pydiv a b = some (a / b) := by
  simp [pydiv, ne_of_gt hb]

lemma qmax_pos_left (a b : ℚ) (ha : 0 < a) : 0 < qmax a b := by
  rw [qmax_eq]
  exact lt_of_lt_of_le ha (le_max_left a b)

lemma total_w_pos (w : List (String × ℚ)) : 0 < total_w w :=
  qmax_pos_left _ _ (by norm_num)

lemma qmin_le_left (a b : ℚ) : qmin a b ≤ a := by
  rw [qmin_eq]
  exact min_le_left a b

lemma qmin_eq_left (a b : ℚ) (h : a ≤ b) : qmin a b = a := by
  rw [qmin_eq]
  exact min_eq_left h

lemma qmin_eq_right (a b : ℚ) (h : b ≤ a) : qmin a b = b := by
  rw [qmin_eq]
  exact min_eq_right h

lemma qmax_eq_right (a b : ℚ) (h : a ≤ b) : qmax a b = b := by
  rw [qmax_eq]
  exact max_eq_right h

lemma estimate_debt_branch (inp : ScenarioInput)
    (htb : 0 < (_total_balance_and_min_payment inp.debts).1)
    (htm : 0 < (_total_balance_and_min_payment inp.debts).2) :
    _estimate_timeline inp = some (specTimelineDebt inp) := by
  unfold _estimate_timeline specTimelineDebt
  rw [if_pos ⟨htb, htm⟩, if_pos htb, pydiv_eq_of_pos _ _ htb]
  simp only [Option.bind_eq_bind, Option.some_bind]
  rw [pydiv_eq_of_pos _ _ (qmax_pos_left _ _ one_pos)]
  simp [_total_balance_and_min_payment, _monthly_rate]

lemma estimate_ef_branch (inp : ScenarioInput)
    (hnd : ¬ (0 < (_total_balance_and_min_payment inp.debts).1 ∧
              0 < (_total_balance_and_min_payment inp.debts).2))
    (hg : 0 < inp.emergency_fund_goal) (hm : 0 < inp.monthly_free_cash) :
    _estimate_timeline inp = some (specTimelineEf inp) := by
  unfold _estimate_timeline specTimelineEf
  rw [if_neg hnd, if_pos ⟨hg, hm⟩, pydiv_eq_of_pos _ _ hm]
  simp only [Option.bind_eq_bind, Option.some_bind]
  rfl

lemma estimate_else_branch (inp : ScenarioInput)
    (hnd : ¬ (0 < (_total_balance_and_min_payment inp.debts).1 ∧
              0 < (_total_balance_and_min_payment inp.debts).2))
    (hne : ¬ (0 < inp.emergency_fund_goal ∧ 0 < inp.monthly_free_cash)) :
    _estimate_timeline inp = some 60 := by
  unfold _estimate_timeline
  rw [if_neg hnd, if_neg hne]
  rfl

lemma estimate_isSome (inp : ScenarioInput) : (_estimate_timeline inp).isSome := by
  by_cases hd : 0 < (_total_balance_and_min_payment inp.debts).1 ∧
      0 < (_total_balance_and_min_payment inp.debts).2
  · rw [estimate_debt_branch inp hd.1 hd.2]; rfl
  · by_cases he : 0 < inp.emergency_fund_goal ∧ 0 < inp.monthly_free_cash
    · rw [estimate_ef_branch inp hd he.1 he.2]; rfl
    · rw [estimate_else_branch inp hd he]; rfl

lemma estimate_ge_six (inp : ScenarioInput) (n : ℕ)
    (h : _estimate_timeline inp = some n) : 6 ≤ n := by
  by_cases hd : 0 < (_total_balance_and_min_payment inp.debts).1 ∧
      0 < (_total_balance_and_min_payment inp.debts).2
  · rw [estimate_debt_branch inp hd.1 hd.2] at h
    obtain rfl : specTimelineDebt inp = n := by injection h
    exact le_min (le_max_right _ _) (by norm_num)
  · by_cases he : 0 < inp.emergency_fund_goal ∧ 0 < inp.monthly_free_cash
    · rw [estimate_ef_branch inp hd he.1 he.2] at h
      obtain rfl : specTimelineEf inp = n := by injection h
      exact le_min (le_max_right _ _) (by norm_num)
    · rw [estimate_else_branch inp hd he] at h
      obtain rfl : (60 : ℕ) = n := by injection h
      norm_num

lemma getHorizon_isSome (inp : ScenarioInput) : (getHorizon inp).isSome := by
  rcases hm : inp.months with _ | m
  · simpa [getHorizon, hm] using estimate_isSome inp
  · by_cases h0 : m = 0
    · simpa [getHorizon, hm, h0] using estimate_isSome inp
    · simp [getHorizon, hm, h0]

lemma getHorizon_pos (inp : ScenarioInput) (h : ℕ)
    (hh : getHorizon inp = some h) : 1 ≤ h := by
  rcases hm : inp.months with _ | m
  · rw [getHorizon, hm] at hh
    have := estimate_ge_six inp h hh
    omega
  · by_cases h0 : m = 0
    · rw [getHorizon, hm] at hh
      simp only [h0, ne_eq, not_true_eq_false, if_false] at hh
      have := estimate_ge_six inp h hh
      omega
    · rw [getHorizon, hm] at hh
      simp only [ne_eq, h0, not_false_eq_true, if_true, Option.some.injEq] at hh
      omega

lemma run_scenarios_eq (inp : ScenarioInput) (h : ℕ)
    (hh : getHorizon inp = some h) :
    run_scenarios inp = some (resultList inp h) := by
  unfold run_scenarios resultList
  rw [hh]
  by_cases ht : weightsTruthy inp.weights
  · simp only [Option.bind, ht, Bool.not_true, if_neg (by simp : ¬ (¬ True))]
    rw [pydiv_eq_of_pos _ _ (total_w_pos _), pydiv_eq_of_pos _ _ (total_w_pos _),
      pydiv_eq_of_pos _ _ (total_w_pos _)]
    simp [debtShare, efShare, investShare]
  · simp [Option.bind, ht]

lemma amortizeLoop_month_bounds (r payment spend : ℚ) (months fuel m : ℕ) (b ip : ℚ) :
    (amortizeLoop r payment spend months fuel m b ip).2 = months ∨
      (m ≤ (amortizeLoop r payment spend months fuel m b ip).2 ∧
        (amortizeLoop r payment spend months fuel m b ip).2 < m + fuel) := by
  induction fuel generalizing m b ip with
  | zero => left; rfl
  | succ n ih =>
    simp only [amortizeLoop]
    split <;> split
    · right; constructor <;> simp
    · rcases ih (m + 1) _ _ with h | h
      · left; exact h
      · right; omega
    · right; constructor <;> simp
    · rcases ih (m + 1) _ _ with h | h
      · left; exact h
      · right; omega

lemma _amortize_single_le (balance apr payment : ℚ) (months : ℕ) (spend : ℚ) :
    (_amortize_single balance apr payment months spend).2 ≤ months := by
  unfold _amortize_single
  split
  · simp
  · rcases amortizeLoop_month_bounds (_monthly_rate apr) payment spend months months 1
      balance 0 with h | h <;> omega

lemma _amortize_single_pos (balance apr payment : ℚ) (months : ℕ) (spend : ℚ)
    (hb : 0 < balance) (hm : 1 ≤ months) :
    1 ≤ (_amortize_single balance apr payment months spend).2 := by
  unfold _amortize_single
  rw [if_neg (not_le.mpr hb)]
  rcases amortizeLoop_month_bounds (_monthly_rate apr) payment spend months months 1
    balance 0 with h | h <;> omega

lemma baselineFold_aux_le (debts : List Debt) (horizon : ℕ) (acc : ℚ × ℕ)
    (hacc : acc.2 ≤ horizon) :
    (debts.foldl (baselineStep horizon) acc).2 ≤ horizon := by
  induction debts generalizing acc with
  | nil => simpa using hacc
  | cons d ds ih =>
    rw [List.foldl_cons]
    refine ih _ ?_
    simp only [baselineStep]
    exact max_le hacc (_amortize_single_le _ _ _ _ _)

lemma baselineFold_aux_mono (debts : List Debt) (horizon : ℕ) (acc : ℚ × ℕ) :
    acc.2 ≤ (debts.foldl (baselineStep horizon) acc).2 := by
  induction debts generalizing acc with
  | nil => simp
  | cons d ds ih =>
    rw [List.foldl_cons]
    refine le_trans ?_ (ih _)
    simp only [baselineStep]
    exact le_max_left _ _

lemma baselineFold_aux_pos (debts : List Debt) (horizon : ℕ) (acc : ℚ × ℕ)
    (hm : 1 ≤ horizon) (hpos : ∃ d ∈ debts, 0 < d.balance) :
    1 ≤ (debts.foldl (baselineStep horizon) acc).2 := by
  induction debts generalizing acc with
  | nil => obtain ⟨d, hd, _⟩ := hpos; simp at hd
  | cons d ds ih =>
    rw [List.foldl_cons]
    obtain ⟨e, he, hbe⟩ := hpos
    rcases List.mem_cons.mp he with rfl | he2
    · refine le_trans ?_ (baselineFold_aux_mono ds horizon _)
      simp only [baselineStep]
      exact le_trans (_amortize_single_pos _ _ _ _ _ hbe hm) (le_max_right _ _)
    · exact ih _ ⟨e, he2, hbe⟩

lemma baselineFold_aux_ge_mem (debts : List Debt) (horizon : ℕ) (acc : ℚ × ℕ)
    (d : Debt) (hd : d ∈ debts) :
    (_amortize_single d.balance d.apr d.min_payment horizon
        (if d.category = "credit_card" then d.monthly_spend else 0)).2 ≤
      (debts.foldl (baselineStep horizon) acc).2 := by
  induction debts generalizing acc with
  | nil => simp at hd
  | cons e es ih =>
    rw [List.foldl_cons]
    rcases List.mem_cons.mp hd with rfl | hd2
    · refine le_trans ?_ (baselineFold_aux_mono es horizon _)
      simp only [baselineStep]
      exact le_max_right _ _
    · exact ih _ hd2

lemma baselineFold_ge_mem (debts : List Debt) (horizon : ℕ) (d : Debt)
    (hd : d ∈ debts) :
    (_amortize_single d.balance d.apr d.min_payment horizon
        (if d.category = "credit_card" then d.monthly_spend else 0)).2 ≤
      (baselineFold debts horizon).2 :=
  baselineFold_aux_ge_mem debts horizon (0, 0) d hd

lemma baselineFold_le (debts : List Debt) (horizon : ℕ) :
    (baselineFold debts horizon).2 ≤ horizon :=
  baselineFold_aux_le debts horizon (0, 0) (Nat.zero_le _)

lemma baselineFold_pos (debts : List Debt) (horizon : ℕ) (hm : 1 ≤ horizon)
    (hpos : ∃ d ∈ debts, 0 < d.balance) :
    1 ≤ (baselineFold debts horizon).2 :=
  baselineFold_aux_pos debts horizon (0, 0) hm hpos

lemma payDebtLoop_payoff (extra : ℚ) (fuel month : ℕ) (s : PayState) :
    (payDebtLoop extra fuel month s).payoff = s.payoff ∨
      (month ≤ (payDebtLoop extra fuel month s).payoff ∧
        (payDebtLoop extra fuel month s).payoff < month + fuel) := by
  induction fuel generalizing month s with
  | zero => left; rfl
  | succ n ih =>
    simp only [payDebtLoop]
    split
    · right; constructor <;> simp
    · rcases ih (month + 1) _ with h | h
      · left; simpa using h
      · right; omega

lemma payDebtLoop_cleared (extra : ℚ) (fuel month : ℕ) (s : PayState)
    (hs : s.payoff = 0) :
    (payDebtLoop extra fuel month s).payoff = 0 ∨
      allCleared (payDebtLoop extra fuel month s).debts = true := by
  induction fuel generalizing month s with
  | zero => left; simpa using hs
  | succ n ih =>
    simp only [payDebtLoop]
    split
    · next hcl => right; simpa using hcl
    · exact ih (month + 1) _ hs

lemma hybridLoop_cleared (mtd : ℚ) (fuel month : ℕ) (s : PayState)
    (hs : s.payoff = 0) :
    (hybridLoop mtd fuel month s).payoff = 0 ∨
      allCleared (hybridLoop mtd fuel month s).debts = true := by
  induction fuel generalizing month s with
  | zero => left; simpa using hs
  | succ n ih =>
    simp only [hybridLoop]
    split
    · next hcl => right; simpa using hcl
    · exact ih (month + 1) _ hs

lemma hybridLoop_payoff (mtd : ℚ) (fuel month : ℕ) (s : PayState) :
    (hybridLoop mtd fuel month s).payoff = s.payoff ∨
      (month ≤ (hybridLoop mtd fuel month s).payoff ∧
        (hybridLoop mtd fuel month s).payoff < month + fuel) := by
  induction fuel generalizing month s with
  | zero => left; rfl
  | succ n ih =>
    simp only [hybridLoop]
    split
    · right; constructor <;> simp
    · rcases ih (month + 1) _ with h | h
      · left; simpa using h
      · right; omega

lemma efLoop_payoff (goal mtd mte : ℚ) (horizon fuel month : ℕ) (s : EFState) :
    (efLoop goal mtd mte horizon fuel month s).1.payoff = s.payoff ∨
      (month ≤ (efLoop goal mtd mte horizon fuel month s).1.payoff ∧
        (efLoop goal mtd mte horizon fuel month s).1.payoff < month + fuel) := by
  induction fuel generalizing month s with
  | zero => left; rfl
  | succ n ih =>
    simp only [efLoop]
    split <;> split
    · right; constructor <;> simp
    · have h := ih (month + 1)
        ⟨applyExtra mtd (accrueAndPay (ccSpend s.debts)).1,
         s.interest + (accrueAndPay (ccSpend s.debts)).2, month,
         s.ef_balance + mte,
         if goal ≤ s.ef_balance + mte ∧ s.ef_goal_month = horizon then month
         else s.ef_goal_month⟩
      rcases h with h | h
      · right; simp at h; omega
      · right; omega
    · left; rfl
    · have h := ih (month + 1)
        ⟨applyExtra mtd (accrueAndPay (ccSpend s.debts)).1,
         s.interest + (accrueAndPay (ccSpend s.debts)).2, s.payoff,
         s.ef_balance + mte,
         if goal ≤ s.ef_balance + mte ∧ s.ef_goal_month = horizon then month
         else s.ef_goal_month⟩
      rcases h with h | h
      · left; simpa using h
      · right; omega

lemma payDebtResult_timeline (inp : ScenarioInput) (h : ℕ) :
    (payDebtResult inp h).timeline_used = h := rfl

lemma investResult_timeline (inp : ScenarioInput) (h : ℕ) :
    (investResult inp h).timeline_used = h := rfl

lemma saveResult_timeline (inp : ScenarioInput) (h : ℕ) :
    (saveResult inp h).timeline_used = h := rfl

lemma hybridResult_timeline (inp : ScenarioInput) (h : ℕ) (a b c : ℚ) :
    (hybridResult inp h a b c).timeline_used = h := rfl

lemma debtEfResult_timeline (inp : ScenarioInput) (h : ℕ) (a b : ℚ) :
    (debtEfResult inp h a b).timeline_used = h := rfl

lemma payDebtResult_bounds (inp : ScenarioInput) (h : ℕ) (hm : 1 ≤ h) :
    1 ≤ (payDebtResult inp h).time_to_debt_free_months ∧
      (payDebtResult inp h).time_to_debt_free_months ≤ h := by
  have hp := payDebtLoop_payoff inp.monthly_free_cash h 1 ⟨lumpedDebts inp, 0, 0⟩
  simp only [payDebtResult]
  rcases hp with hp | hp
  · have hp0 : (payDebtLoop inp.monthly_free_cash h 1 ⟨lumpedDebts inp, 0, 0⟩).payoff = 0 := by
      simpa using hp
    rw [hp0]
    simp [hm]
  · have hne : (payDebtLoop inp.monthly_free_cash h 1 ⟨lumpedDebts inp, 0, 0⟩).payoff ≠ 0 := by
      omega
    rw [if_neg hne]
    omega

lemma investResult_bounds (inp : ScenarioInput) (h : ℕ) (hm : 1 ≤ h)
    (hpos : ∃ d ∈ inp.debts, 0 < d.balance) :
    1 ≤ (investResult inp h).time_to_debt_free_months ∧
      (investResult inp h).time_to_debt_free_months ≤ h := by
  simp only [investResult]
  exact ⟨baselineFold_pos _ _ hm hpos, baselineFold_le _ _⟩

lemma saveResult_bounds (inp : ScenarioInput) (h : ℕ) (hm : 1 ≤ h)
    (hpos : ∃ d ∈ inp.debts, 0 < d.balance) :
    1 ≤ (saveResult inp h).time_to_debt_free_months ∧
      (saveResult inp h).time_to_debt_free_months ≤ h := by
  simp only [saveResult]
  exact ⟨baselineFold_pos _ _ hm hpos, baselineFold_le _ _⟩

lemma hybridResult_bounds (inp : ScenarioInput) (h : ℕ) (a b c : ℚ) (hm : 1 ≤ h) :
    1 ≤ (hybridResult inp h a b c).time_to_debt_free_months ∧
      (hybridResult inp h a b c).time_to_debt_free_months ≤ h := by
  have hp := hybridLoop_payoff (inp.monthly_free_cash * a) h 1
    ⟨applyLump (inp.lump_sum * a) (lumpedDebts inp), 0, 0⟩
  simp only [hybridResult]
  rcases hp with hp | hp
  · have hp0 : (hybridLoop (inp.monthly_free_cash * a) h 1
        ⟨applyLump (inp.lump_sum * a) (lumpedDebts inp), 0, 0⟩).payoff = 0 := by
      simpa using hp
    rw [hp0]
    simp [hm]
  · have hne : (hybridLoop (inp.monthly_free_cash * a) h 1
        ⟨applyLump (inp.lump_sum * a) (lumpedDebts inp), 0, 0⟩).payoff ≠ 0 := by
      omega
    rw [if_neg hne]
    omega

lemma debtEfResult_bounds (inp : ScenarioInput) (h : ℕ) (a b : ℚ) (hm : 1 ≤ h) :
    1 ≤ (debtEfResult inp h a b).time_to_debt_free_months ∧
      (debtEfResult inp h a b).time_to_debt_free_months ≤ h := by
  have hp := efLoop_payoff inp.emergency_fund_goal (inp.monthly_free_cash * a)
    (inp.monthly_free_cash * b) h h 1
    ⟨applyLump (inp.lump_sum * a) (lumpedDebts inp), 0, 0, inp.lump_sum * b, h⟩
  simp only [debtEfResult]
  rcases hp with hp | hp
  · have hp0 : (efLoop inp.emergency_fund_goal (inp.monthly_free_cash * a)
        (inp.monthly_free_cash * b) h h 1
        ⟨applyLump (inp.lump_sum * a) (lumpedDebts inp), 0, 0,
          inp.lump_sum * b, h⟩).1.payoff = 0 := by
      simpa using hp
    rw [hp0]
    simp [hm]
  · have hne : (efLoop inp.emergency_fund_goal (inp.monthly_free_cash * a)
        (inp.monthly_free_cash * b) h h 1
        ⟨applyLump (inp.lump_sum * a) (lumpedDebts inp), 0, 0,
          inp.lump_sum * b, h⟩).1.payoff ≠ 0 := by
      omega
    rw [if_neg hne]
    omega

lemma resultList_mem (inp : ScenarioInput) (h : ℕ) (r : ScenarioResult)
    (hr : r ∈ resultList inp h) :
    r = payDebtResult inp h ∨ r = investResult inp h ∨ r = saveResult inp h ∨
      r = hybridResult inp h (debtShare inp) (efShare inp) (investShare inp) ∨
      r = debtEfResult inp h (debtShare inp) (efShare inp) := by
  unfold resultList at hr
  by_cases ht : weightsTruthy inp.weights
  · simp [ht] at hr
    rcases hr with rfl | rfl | rfl | rfl | rfl
    · exact Or.inl rfl
    · exact Or.inr (Or.inl rfl)
    · exact Or.inr (Or.inr (Or.inl rfl))
    · exact Or.inr (Or.inr (Or.inr (Or.inl rfl)))
    · exact Or.inr (Or.inr (Or.inr (Or.inr rfl)))
  · simp [ht] at hr
    rcases hr with rfl | rfl | rfl
    · exact Or.inl rfl
    · exact Or.inr (Or.inl rfl)
    · exact Or.inr (Or.inr (Or.inl rfl))

/-! ## Claim theorems -/

/-- C4: for every `ScenarioInput`, `run_scenarios` terminates normally and
never hits an error branch — in particular both guarded divisions (the
balance-weighted-APR divisor and the weight-sum divisor) are provably
nonzero whenever they are reached, so the computation always produces a
result list. -/
theorem run_scenarios_total_C4 (inp : ScenarioInput) :
    (run_scenarios inp).isSome := by
  obtain ⟨h, hh⟩ := Option.isSome_iff_exists.mp (getHorizon_isSome inp)
  rw [run_scenarios_eq inp h hh]
  rfl

/-- C1: for every `ScenarioInput`, `run_scenarios` returns exactly the
results named Pay Debt, Invest, Save — followed by Hybrid and
Debt + EF Goal exactly when the weights dict is present and non-empty —
in that fixed order. -/
theorem scenario_names_C1 (inp : ScenarioInput) :
    (run_scenarios inp).map (fun rs => rs.map ScenarioResult.name) =
      some (if weightsTruthy inp.weights then
              ["Pay Debt", "Invest", "Save", "Hybrid", "Debt + EF Goal"]
            else
              ["Pay Debt", "Invest", "Save"]) := by
  obtain ⟨h, hh⟩ := Option.isSome_iff_exists.mp (getHorizon_isSome inp)
  rw [run_scenarios_eq inp h hh]
  by_cases ht : weightsTruthy inp.weights <;>
    simp [resultList, ht, payDebtResult, investResult, saveResult,
      hybridResult, debtEfResult]

/-- C2 counterexample: on the all-default input (no debts), the horizon is
60 and the three results report payoff months 1, 0, 0 — the Invest and Save
results carry `time_to_debt_free_months = 0`, outside the claimed range
`[1, timeline_used]`. -/
theorem scenario_payoff_zero_C2_cex :
    (run_scenarios inp0).map (fun rs => rs.map ScenarioResult.time_to_debt_free_months) =
        some [1, 0, 0] ∧
      (run_scenarios inp0).map (fun rs => rs.map ScenarioResult.timeline_used) =
        some [60, 60, 60] := by
  with_unfolding_all decide

/-- C2 (amended): whenever some debt has a positive balance, every result of
`run_scenarios` has `time_to_debt_free_months` in `[1, timeline_used]`, and
`timeline_used` is the one horizon of the call (never zero, never unset).
Moreover, for every result, when the debts never reach zero within the
horizon the payoff month equals the horizon value itself: for the Pay Debt,
Hybrid and Debt + EF Goal results, a simulation whose recorded payoff stayed
0 (no month cleared every balance) reports the horizon — and Pay Debt and
Hybrid report anything other than the horizon only when their final balances
are actually cleared; for the Invest and Save results, any debt whose
amortization runs the full horizon forces the reported baseline payoff month
to be the horizon. Without a positive-balance debt, the Invest and Save
results report 0 instead. -/
theorem scenario_payoff_bounds_C2 (inp : ScenarioInput) (rs : List ScenarioResult)
    (hrun : run_scenarios inp = some rs)
    (hpos : ∃ d ∈ inp.debts, 0 < d.balance) :
    (∀ r ∈ rs, 1 ≤ r.time_to_debt_free_months ∧
        r.time_to_debt_free_months ≤ r.timeline_used ∧
        getHorizon inp = some r.timeline_used) ∧
    (∀ r ∈ rs, r.name = "Pay Debt" →
        ((payDebtLoop inp.monthly_free_cash r.timeline_used 1
            ⟨lumpedDebts inp, 0, 0⟩).payoff = 0 →
          r.time_to_debt_free_months = r.timeline_used) ∧
        (r.time_to_debt_free_months = r.timeline_used ∨
          allCleared (payDebtLoop inp.monthly_free_cash r.timeline_used 1
            ⟨lumpedDebts inp, 0, 0⟩).debts = true)) ∧
    (∀ r ∈ rs, r.name = "Invest" ∨ r.name = "Save" →
        ∀ d ∈ inp.debts,
          (_amortize_single d.balance d.apr d.min_payment r.timeline_used
              (if d.category = "credit_card" then d.monthly_spend else 0)).2 =
            r.timeline_used →
          r.time_to_debt_free_months = r.timeline_used) ∧
    (∀ r ∈ rs, r.name = "Hybrid" →
        ((hybridLoop (inp.monthly_free_cash * debtShare inp) r.timeline_used 1
            ⟨applyLump (inp.lump_sum * debtShare inp) (lumpedDebts inp), 0, 0⟩).payoff = 0 →
          r.time_to_debt_free_months = r.timeline_used) ∧
        (r.time_to_debt_free_months = r.timeline_used ∨
          allCleared (hybridLoop (inp.monthly_free_cash * debtShare inp) r.timeline_used 1
            ⟨applyLump (inp.lump_sum * debtShare inp) (lumpedDebts inp), 0, 0⟩).debts = true)) ∧
    (∀ r ∈ rs, r.name = "Debt + EF Goal" →
        (efLoop inp.emergency_fund_goal (inp.monthly_free_cash * debtShare inp)
            (inp.monthly_free_cash * efShare inp) r.timeline_used r.timeline_used 1
            ⟨applyLump (inp.lump_sum * debtShare inp) (lumpedDebts inp), 0, 0,
              inp.lump_sum * efShare inp, r.timeline_used⟩).1.payoff = 0 →
        r.time_to_debt_free_months = r.timeline_used) := by
  obtain ⟨h, hh⟩ := Option.isSome_iff_exists.mp (getHorizon_isSome inp)
  have hm := getHorizon_pos inp h hh
  rw [run_scenarios_eq inp h hh] at hrun
  obtain rfl : resultList inp h = rs := by injection hrun
  refine ⟨?_, ?_, ?_, ?_, ?_⟩
  · intro r hr
    rcases resultList_mem inp h r hr with rfl | rfl | rfl | rfl | rfl
    · obtain ⟨h1, h2⟩ := payDebtResult_bounds inp h hm
      exact ⟨h1, by rw [payDebtResult_timeline]; exact h2,
        by rw [payDebtResult_timeline]; exact hh⟩
    · obtain ⟨h1, h2⟩ := investResult_bounds inp h hm hpos
      exact ⟨h1, by rw [investResult_timeline]; exact h2,
        by rw [investResult_timeline]; exact hh⟩
    · obtain ⟨h1, h2⟩ := saveResult_bounds inp h hm hpos
      exact ⟨h1, by rw [saveResult_timeline]; exact h2,
        by rw [saveResult_timeline]; exact hh⟩
    · obtain ⟨h1, h2⟩ := hybridResult_bounds inp h _ _ _ hm
      exact ⟨h1, by rw [hybridResult_timeline]; exact h2,
        by rw [hybridResult_timeline]; exact hh⟩
    · obtain ⟨h1, h2⟩ := debtEfResult_bounds inp h _ _ hm
      exact ⟨h1, by rw [debtEfResult_timeline]; exact h2,
        by rw [debtEfResult_timeline]; exact hh⟩
  · intro r hr hname
    rcases resultList_mem inp h r hr with rfl | rfl | rfl | rfl | rfl
    · rw [payDebtResult_timeline]
      constructor
      · intro hz
        simp [payDebtResult, hz]
      · rcases payDebtLoop_cleared inp.monthly_free_cash h 1 ⟨lumpedDebts inp, 0, 0⟩ rfl
          with hz | hcl
        · left
          simp [payDebtResult, hz]
        · right
          exact hcl
    · exact absurd hname (by intro hc; simp [investResult] at hc)
    · exact absurd hname (by intro hc; simp [saveResult] at hc)
    · exact absurd hname (by intro hc; simp [hybridResult] at hc)
    · exact absurd hname (by intro hc; simp [debtEfResult] at hc)
  · intro r hr hname d hd hamort
    rcases resultList_mem inp h r hr with rfl | rfl | rfl | rfl | rfl
    · exact absurd hname (by intro hc; rcases hc with hc | hc <;> simp [payDebtResult] at hc)
    · rw [investResult_timeline] at hamort ⊢
      have hge := baselineFold_ge_mem inp.debts h d hd
      rw [hamort] at hge
      have hle := baselineFold_le inp.debts h
      simp only [investResult]
      omega
    · rw [saveResult_timeline] at hamort ⊢
      have hge := baselineFold_ge_mem inp.debts h d hd
      rw [hamort] at hge
      have hle := baselineFold_le inp.debts h
      simp only [saveResult]
      omega
    · exact absurd hname (by intro hc; rcases hc with hc | hc <;> simp [hybridResult] at hc)
    · exact absurd hname (by intro hc; rcases hc with hc | hc <;> simp [debtEfResult] at hc)
  · intro r hr hname
    rcases resultList_mem inp h r hr with rfl | rfl | rfl | rfl | rfl
    · exact absurd hname (by intro hc; simp [payDebtResult] at hc)
    · exact absurd hname (by intro hc; simp [investResult] at hc)
    · exact absurd hname (by intro hc; simp [saveResult] at hc)
    · rw [hybridResult_timeline]
      constructor
      · intro hz
        simp [hybridResult, hz]
      · rcases hybridLoop_cleared (inp.monthly_free_cash * debtShare inp) h 1
            ⟨applyLump (inp.lump_sum * debtShare inp) (lumpedDebts inp), 0, 0⟩ rfl
          with hz | hcl
        · left
          simp [hybridResult, hz]
        · right
          exact hcl
    · exact absurd hname (by intro hc; simp [debtEfResult] at hc)
  · intro r hr hname
    rcases resultList_mem inp h r hr with rfl | rfl | rfl | rfl | rfl
    · exact absurd hname (by intro hc; simp [payDebtResult] at hc)
    · exact absurd hname (by intro hc; simp [investResult] at hc)
    · exact absurd hname (by intro hc; simp [saveResult] at hc)
    · exact absurd hname (by intro hc; simp [hybridResult] at hc)
    · rw [debtEfResult_timeline]
      intro hz
      simp [debtEfResult, hz]

/-- C2 witness: for the concrete single-debt 12-month input, the Pay Debt
result (head of the list) has payoff month within `[1, timeline_used]`. -/
theorem scenario_payoff_bounds_C2_witness :
    1 ≤ (((run_scenarios inpC5).getD []).getD 0 dummyResult).time_to_debt_free_months ∧
      (((run_scenarios inpC5).getD []).getD 0 dummyResult).time_to_debt_free_months ≤
        (((run_scenarios inpC5).getD []).getD 0 dummyResult).timeline_used := by
  have hr : run_scenarios inpC5 = some resC5 := by with_unfolding_all decide
  have hb := scenario_payoff_bounds_C2 inpC5 resC5 hr
    ⟨⟨"credit_card", 5000, 24, 150, 0⟩, List.Mem.head _,
      by with_unfolding_all decide⟩
  have hmem : (resC5.getD 0 dummyResult) ∈ resC5 := by with_unfolding_all decide
  obtain ⟨h1, h2, -⟩ := hb.1 _ hmem
  rw [hr]
  exact ⟨h1, h2⟩

/-- C3 counterexample: `inpC3` has a debt (balance 100, zero minimum
payment), so the claim's guard "any debt exists" applies and its formula
gives 103; the code requires a positive total minimum payment as well and
falls through to the default horizon 60. -/
theorem timeline_guard_C3_cex :
    inpC3.debts ≠ [] ∧ _estimate_timeline inpC3 = some 60 ∧
      specTimelineDebt inpC3 = 103 ∧ (60 : ℕ) ≠ 103 := by
  with_unfolding_all decide

/-- C3 (amended): the debt-branch formula of the claim holds when the
total balance *and* the total minimum payment are both positive (not merely
when a debt exists); otherwise the emergency-fund branch applies when goal
and surplus are positive, and otherwise the horizon is 60. -/
theorem timeline_formula_C3 (inp : ScenarioInput) :
    (0 < (_total_balance_and_min_payment inp.debts).1 →
      0 < (_total_balance_and_min_payment inp.debts).2 →
      _estimate_timeline inp = some (specTimelineDebt inp)) ∧
    (¬ (0 < (_total_balance_and_min_payment inp.debts).1 ∧
        0 < (_total_balance_and_min_payment inp.debts).2) →
      0 < inp.emergency_fund_goal → 0 < inp.monthly_free_cash →
      _estimate_timeline inp = some (specTimelineEf inp)) ∧
    (¬ (0 < (_total_balance_and_min_payment inp.debts).1 ∧
        0 < (_total_balance_and_min_payment inp.debts).2) →
      ¬ (0 < inp.emergency_fund_goal ∧ 0 < inp.monthly_free_cash) →
      _estimate_timeline inp = some 60) :=
  ⟨fun h1 h2 => estimate_debt_branch inp h1 h2,
   fun hnd hg hm => estimate_ef_branch inp hnd hg hm,
   fun hnd hne => estimate_else_branch inp hnd hne⟩

/-- C3 witness: each branch at a concrete input — debt branch on `inpT`
(estimate 13), emergency-fund branch on `inpEf` (estimate 6), default on
`inp0` (60). -/
theorem timeline_formula_C3_witness :
    _estimate_timeline inpT = some (specTimelineDebt inpT) ∧
      _estimate_timeline inpEf = some (specTimelineEf inpEf) ∧
      _estimate_timeline inp0 = some 60 :=
  ⟨(timeline_formula_C3 inpT).1 (by with_unfolding_all decide)
      (by with_unfolding_all decide),
   (timeline_formula_C3 inpEf).2.1 (by with_unfolding_all decide)
      (by with_unfolding_all decide) (by with_unfolding_all decide),
   (timeline_formula_C3 inp0).2.2 (by with_unfolding_all decide)
      (by with_unfolding_all decide)⟩

/-- C5: on the §8 single-credit-card scenario (balance 5000, APR 24,
minimum 150, zero lump, zero surplus, 12 months) the Pay Debt result's
`interest_saved` is exactly 0: with nothing extra to pay, the multi-debt
simulation accrues exactly the baseline interest. -/
theorem pay_debt_zero_saved_C5 :
    (run_scenarios inpC5).map (fun rs => rs.map fun r => (r.name, r.interest_saved)) =
      some [("Pay Debt", 0), ("Invest", 0), ("Save", 0)] := by
  with_unfolding_all decide

/-- C7: the Debt + EF Goal monthly loop `break`s (exits before exhausting
its months) only when, at the break month, the running emergency-fund
balance has met the goal *and* the payoff month has been recorded (every
debt balance cleared at some month); meeting one condition alone never
stops the loop. -/
theorem ef_joint_stop_C7 (goal mtd mte : ℚ) (horizon fuel month : ℕ)
    (s sf : EFState) (m : ℕ)
    (h : efLoop goal mtd mte horizon fuel month s = (sf, some m)) :
    goal ≤ sf.ef_balance ∧ sf.payoff ≠ 0 := by
  induction fuel generalizing month s with
  | zero =>
    rw [efLoop] at h
    simp at h
  | succ n ih =>
    rw [efLoop] at h
    split at h <;> split at h
    · rename_i hpo hbrk
      injection h with h1 h2
      subst h1
      exact ⟨hbrk.1, by simpa using hbrk.2⟩
    · exact ih (month + 1) _ h
    · rename_i hpo hbrk
      injection h with h1 h2
      subst h1
      exact ⟨hbrk.1, hbrk.2⟩
    · exact ih (month + 1) _ h

/-- C7 witness: with goal 0 and no debts the loop breaks at month 1, and
the theorem yields both exit conditions for the final state. -/
theorem ef_joint_stop_C7_witness :
    (0 : ℚ) ≤ (⟨[], 0, 1, 0, 1⟩ : EFState).ef_balance ∧
      (⟨[], 0, 1, 0, 1⟩ : EFState).payoff ≠ 0 :=
  ef_joint_stop_C7 0 0 0 5 5 1 ⟨[], 0, 0, 0, 5⟩ ⟨[], 0, 1, 0, 1⟩ 1
    (by with_unfolding_all decide)

/-- C6: the lump-sum pre-application of `run_scenarios`: the stable
APR-descending sort puts the 24%-APR debt ahead of the 10% one (whatever
the input order), a lump of 1000 clears the high-APR balance `b1 ≤ 1000`
completely and only the remainder `1000 - b1` reaches the second debt;
in general a debt absorbing the whole lump leaves later debts untouched,
and equal-or-lower APR keeps the original order (stable ties). -/
theorem lump_priority_C6 (b1 b2 mp1 mp2 ms1 ms2 : ℚ)
    (hb2 : 0 ≤ b2) (hle : b1 ≤ 1000) :
    sortByAprDesc [⟨"personal", b2, 10, mp2, ms2⟩, ⟨"credit_card", b1, 24, mp1, ms1⟩] =
      [⟨"credit_card", b1, 24, mp1, ms1⟩, ⟨"personal", b2, 10, mp2, ms2⟩] ∧
    applyLump 1000 [⟨"credit_card", b1, 24, mp1, ms1⟩, ⟨"personal", b2, 10, mp2, ms2⟩] =
      [⟨"credit_card", 0, 24, mp1, ms1⟩,
       ⟨"personal", b2 - qmin b2 (1000 - b1), 10, mp2, ms2⟩] ∧
    (∀ (d e : Debt) (lump : ℚ), 0 < lump → lump ≤ d.balance →
      applyLump lump [d, e] = [{ d with balance := d.balance - lump }, e]) ∧
    (∀ (d e : Debt), e.apr ≤ d.apr → sortByAprDesc [d, e] = [d, e]) := by
  refine ⟨?_, ?_, ?_, ?_⟩
  · norm_num [sortByAprDesc, insertByAprDesc]
  · simp only [applyLump]
    rw [if_neg (by norm_num : ¬ ((1000:ℚ) ≤ 0))]
    rw [qmin_eq_left _ _ hle, sub_self, qmax_eq_right 0 0 le_rfl]
    by_cases hr : (1000:ℚ) - b1 ≤ 0
    · rw [if_pos hr]
      have h0 : (1000:ℚ) - b1 = 0 := le_antisymm hr (by linarith)
      rw [h0, qmin_eq_right _ _ hb2, sub_zero]
    · rw [if_neg hr]
      rw [qmax_eq_right _ _ (sub_nonneg.mpr (qmin_le_left b2 _))]
  · intro d e lump hl hle2
    simp only [applyLump]
    rw [if_neg (not_le.mpr hl), qmin_eq_right _ _ hle2,
      qmax_eq_right _ _ (by linarith), sub_self]
    simp [applyLump]
  · intro d e h
    simp [sortByAprDesc, insertByAprDesc, h]

/-- C6 witness: debts of 800 at 24% and 500 at 10% with lump 1000 — the
24% debt is cleared first and the 10% debt only absorbs the remaining 200. -/
theorem lump_priority_C6_witness :
    sortByAprDesc [⟨"personal", 500, 10, 30, 0⟩, ⟨"credit_card", 800, 24, 25, 0⟩] =
      [⟨"credit_card", 800, 24, 25, 0⟩, ⟨"personal", 500, 10, 30, 0⟩] ∧
    applyLump 1000 [⟨"credit_card", 800, 24, 25, 0⟩, ⟨"personal", 500, 10, 30, 0⟩] =
      [⟨"credit_card", 0, 24, 25, 0⟩,
       ⟨"personal", 500 - qmin 500 (1000 - 800), 10, 30, 0⟩] := by
  obtain ⟨h1, h2, -, -⟩ := lump_priority_C6 800 500 25 30 0 0
    (by norm_num) (by norm_num)
  exact ⟨h1, h2⟩

/-- C8 counterexample: `quick_assess "debt"` returns weight 0.33 — not the
claimed 0.2 — for each non-chosen category. -/
theorem quick_assess_C8_cex :
    quick_assess "debt" = Except.ok (60, "Quick", (6/10, 33/100, 33/100)) ∧
      ¬ ((33 : ℚ)/100 = 2/10) := by
  with_unfolding_all decide

/-- C8 (amended): for each choice among debt/ef/invest, `quick_assess`
returns score 60, label "Quick", weight 0.6 for the chosen category and the
untouched base weight 0.33 (not 0.2) for each of the other two; any other
choice is rejected with the validation error. -/
theorem quick_assess_C8 (choice : String) :
    (choice = "debt" → quick_assess choice =
      Except.ok (60, "Quick", (6/10, 33/100, 33/100))) ∧
    (choice = "ef" → quick_assess choice =
      Except.ok (60, "Quick", (33/100, 6/10, 33/100))) ∧
    (choice = "invest" → quick_assess choice =
      Except.ok (60, "Quick", (33/100, 33/100, 6/10))) ∧
    (choice ∉ (["debt", "ef", "invest"] : List String) →
      quick_assess choice = Except.error "choice must be debt, ef, or invest") := by
  refine ⟨?_, ?_, ?_, ?_⟩
  · rintro rfl
    with_unfolding_all decide
  · rintro rfl
    with_unfolding_all decide
  · rintro rfl
    with_unfolding_all decide
  · intro hc
    rw [quick_assess, if_pos hc]

/-- C8 witness: the ef choice and a rejected choice. -/
theorem quick_assess_C8_witness :
    quick_assess "ef" = Except.ok (60, "Quick", (33/100, 6/10, 33/100)) ∧
      quick_assess "hello" = Except.error "choice must be debt, ef, or invest" :=
  ⟨(quick_assess_C8 "ef").2.1 rfl,
   (quick_assess_C8 "hello").2.2.2 (by decide)⟩

/-- C9 counterexample: `assess` accepts a response whose score 99 is far
outside the 1-5 Likert bound and succeeds — the endpoint takes raw dicts
and never applies the `QuestionResponse` bound. -/
theorem assess_score_unchecked_C9_cex :
    isOkE (assess [("q1", 99)]) = true ∧ ¬ ((1 : ℤ) ≤ 99 ∧ (99 : ℤ) ≤ 5) := by
  with_unfolding_all decide

/-- C9 (amended): `assess` fails exactly on the empty list; every non-empty
response list succeeds, scores unchecked (no score-bound validation exists
in this endpoint); the concrete boundary case `[("q1", 5)]` succeeds with
score 100 and label "Excellent". -/
theorem assess_empty_C9 (responses : List (String × ℤ)) :
    (responses = [] → assess responses =
      Except.error "You must complete the assessment.") ∧
    (responses ≠ [] → isOkE (assess responses) = true) ∧
    assess [("q1", 5)] = Except.ok (100, "Excellent", (464/1000, 264/1000, 272/1000)) := by
  refine ⟨?_, ?_, by with_unfolding_all decide⟩
  · rintro rfl
    with_unfolding_all decide
  · intro hne
    rw [assess, if_neg (by simpa using hne)]
    rfl

/-- C9 witness: the empty list fails, a singleton succeeds. -/
theorem assess_empty_C9_witness :
    assess ([] : List (String × ℤ)) =
        Except.error "You must complete the assessment." ∧
      isOkE (assess [("q1", 3)]) = true :=
  ⟨(assess_empty_C9 []).1 rfl, (assess_empty_C9 [("q1", 3)]).2.1 (by simp)⟩

lemma abs_pyround_sub_le (x : ℚ) : |(pyround x : ℚ) - x| ≤ 1/2 := by
  unfold pyround
  split_ifs with h1 h2
  · rw [abs_le]
    constructor <;> linarith
  · rw [abs_le]
    constructor <;> push_cast <;> linarith
  · rw [abs_sub_comm]
    exact abs_sub_round x

lemma abs_round3_sub_le (q : ℚ) : |round3 q - q| ≤ 1/2000 := by
  unfold round3
  have h := abs_pyround_sub_le (q * 1000)
  rw [abs_le] at h ⊢
  constructor <;> linarith [h.1, h.2]

lemma addBuckets_sum_mono (rs : List (String × ℤ)) (w : ℚ × ℚ × ℚ)
    (h : ∀ p ∈ rs, 0 ≤ p.2) :
    w.1 + w.2.1 + w.2.2 ≤
      (addBuckets w rs).1 + (addBuckets w rs).2.1 + (addBuckets w rs).2.2 := by
  induction rs generalizing w with
  | nil => simp [addBuckets]
  | cons p ps ih =>
    obtain ⟨qid, s⟩ := p
    have hsz : (0:ℤ) ≤ s := h (qid, s) (List.Mem.head _)
    have hs : (0:ℚ) ≤ (s:ℚ) := by exact_mod_cast hsz
    have hps : ∀ p ∈ ps, 0 ≤ p.2 := fun p hp => h p (List.mem_cons_of_mem _ hp)
    simp only [addBuckets]
    split_ifs with h1 h2 h3 <;> refine le_trans ?_ (ih _ hps) <;> simp <;>
      linarith [hsz, hs]

/-- C10 counterexample: on the valid single-response input `[("q2", 1)]`
the code's weights are (0.314, 0.362, 0.324) while the claim's pipeline
(every bucket starting at 0.33) yields (0.317, 0.365, 0.317). -/
theorem assess_weights_C10_cex :
    (assess [("q2", 1)]).map (fun t => t.2.2) =
        Except.ok ((314 : ℚ)/1000, (362 : ℚ)/1000, (324 : ℚ)/1000) ∧
      specAssessWeights [("q2", 1)] =
        ((317 : ℚ)/1000, (365 : ℚ)/1000, (317 : ℚ)/1000) ∧
      ¬ (((314 : ℚ)/1000, (362 : ℚ)/1000, (324 : ℚ)/1000) =
          ((317 : ℚ)/1000, (365 : ℚ)/1000, (317 : ℚ)/1000)) := by
  with_unfolding_all decide

/-- C10 (amended): `assess` derives its weights by the claimed pipeline
except that the invest bucket starts at base weight 0.34 (debt and ef at
0.33): add `score × 0.05` per answered question, divide by the bucket sum
(divisor 1 if the sum is zero), round each weight to 3 decimals; for valid
(1-5) non-empty input the three returned weights sum to 1 within the
3-decimal rounding error (3/2000). -/
theorem assess_weights_C10 (responses : List (String × ℤ))
    (hv : ∀ p ∈ responses, 1 ≤ p.2 ∧ p.2 ≤ 5) (hne : responses ≠ []) :
    (assess responses).map (fun t => t.2.2) =
        Except.ok (specAssessWeights034 responses) ∧
      |(specAssessWeights034 responses).1 + (specAssessWeights034 responses).2.1 +
        (specAssessWeights034 responses).2.2 - 1| ≤ 3/2000 := by
  have h0 : ∀ p ∈ responses, (0:ℤ) ≤ p.2 := fun p hp =>
    le_trans zero_le_one (hv p hp).1
  have hsum := addBuckets_sum_mono responses (33/100, 33/100, 34/100) h0
  set w := addBuckets (33/100, 33/100, 34/100) responses with hw
  have ht0 : (1:ℚ) ≤ w.1 + w.2.1 + w.2.2 := by
    have h1 : (33:ℚ)/100 + 33/100 + 34/100 ≤ w.1 + w.2.1 + w.2.2 := by
      simpa using hsum
    linarith
  have htne : w.1 + w.2.1 + w.2.2 ≠ 0 := by
    intro hz
    rw [hz] at ht0
    norm_num at ht0
  constructor
  · rw [assess, if_neg (by simpa using hne)]
    rfl
  · have hc : specAssessWeights034 responses =
        (round3 (w.1 / (w.1 + w.2.1 + w.2.2)),
         round3 (w.2.1 / (w.1 + w.2.1 + w.2.2)),
         round3 (w.2.2 / (w.1 + w.2.1 + w.2.2))) := by
      rw [specAssessWeights034]
      rw [← hw]
      rw [if_neg htne]
    have hx : w.1 / (w.1 + w.2.1 + w.2.2) + w.2.1 / (w.1 + w.2.1 + w.2.2) +
        w.2.2 / (w.1 + w.2.1 + w.2.2) = 1 := by
      rw [div_add_div_same, div_add_div_same, div_self htne]
    have e1 := abs_round3_sub_le (w.1 / (w.1 + w.2.1 + w.2.2))
    have e2 := abs_round3_sub_le (w.2.1 / (w.1 + w.2.1 + w.2.2))
    have e3 := abs_round3_sub_le (w.2.2 / (w.1 + w.2.1 + w.2.2))
    rw [hc]
    rw [abs_le] at e1 e2 e3 ⊢
    constructor <;> simp only [] <;> linarith [e1.1, e1.2, e2.1, e2.2, e3.1, e3.2]

/-- C10 witness: the boundary input `[("q1", 5)]` — weights
(0.464, 0.264, 0.272), summing exactly to 1. -/
theorem assess_weights_C10_witness :
    (assess [("q1", 5)]).map (fun t => t.2.2) =
        Except.ok (specAssessWeights034 [("q1", 5)]) ∧
      |(specAssessWeights034 [("q1", 5)]).1 + (specAssessWeights034 [("q1", 5)]).2.1 +
        (specAssessWeights034 [("q1", 5)]).2.2 - 1| ≤ 3/2000 :=
  assess_weights_C10 [("q1", 5)]
    (by
      intro p hp
      rw [List.mem_singleton] at hp
      subst hp
      exact ⟨by norm_num, by norm_num⟩)
    (by simp)

end FinanceMVP



